import Mathlib

/-!
Verification of the Game of Life widget (src/src/components/GameOfLife.tsx).

The grid is a list of rows of boolean cells.  The component code is shallowly
embedded: `countNeighbors`, `updateGrid`, `step`, `clear`, `random`,
`addGlider` and `toggleCell` translate the TypeScript functions of the same
names, and `stepEvent` gives the event-driven semantics of the widget state
(the `useState` slices `cells`, `systemRunning`, `userRunning`, `running`
together with the `useEffect` that derives `running` from the two inputs).
-/

abbrev Cell := Bool
abbrev Grid := List (List Cell)

def CELL_SIZE : Nat := 10
def WIDTH : Nat := 1920
def HEIGHT : Nat := 1080

/-- Number of rows of the component grid: HEIGHT / CELL_SIZE = 108. -/
def gridRows : Nat := HEIGHT / CELL_SIZE

/-- Number of columns of the component grid: WIDTH / CELL_SIZE = 192. -/
def gridCols : Nat := WIDTH / CELL_SIZE

/-- Lookup `grid[r]?.[c]`; an out-of-range access yields `undefined`, which is
falsy everywhere the code consumes it, so the embedding returns `false`. -/
def cellAt (g : Grid) (r c : Nat) : Bool := (g.getD r []).getD c false

/-- The 8 neighbor offsets visited by the double loop of `countNeighbors`
(`i` and `j` range over -1..1 and the `(0,0)` case is skipped). -/
def neighborOffsets : List (Int × Int) :=
  [(-1, -1), (-1, 0), (-1, 1), (0, -1), (0, 1), (1, -1), (1, 0), (1, 1)]

/-- The wrapped index `(base + d + n) % n` computed for a neighbor row or
column (lines 63-64 of the source). -/
def wrapIdx (n base : Nat) (d : Int) : Nat :=
  (((base : Int) + d + (n : Int)) % (n : Int)).toNat

/-- `countNeighbors(grid, row, col)` (source lines 52-82): fold over the 8
offsets, wrap the indices, check the (always-true) bounds guard, and count
the live neighbors. -/
def countNeighbors (grid : Grid) (row col : Nat) : Nat :=
  let numRows := grid.length
  let numCols := (grid.headD []).length
  neighborOffsets.foldl
    (fun count d =>
      let neighborsRow := wrapIdx numRows row d.1
      let neighborsColumn := wrapIdx numCols col d.2
      if neighborsRow < numRows ∧ neighborsColumn < numCols then
        if cellAt grid neighborsRow neighborsColumn then count + 1 else count
      else count)
    0

/-- `updateGrid` (source lines 39-50): map over all cells, applying the
Conway rule to the neighbor count of each cell. -/
def updateGrid (cells : Grid) : Grid :=
  cells.mapIdx fun rowIndex row =>
    row.mapIdx fun cellIndex cell =>
      let neighbors := countNeighbors cells rowIndex cellIndex
      if cell then neighbors == 2 || neighbors == 3 else neighbors == 3

/-- `step` (source lines 88-91): a no-op while `running` is true, otherwise
one application of `updateGrid`. -/
def step (running : Bool) (cells : Grid) : Grid :=
  if running then cells else updateGrid cells

/-- `clear` (source lines 107-119): the all-dead grid of the fixed component
dimensions. -/
def clear : Grid :=
  List.replicate gridRows (List.replicate gridCols false)

/-- `random` (source lines 93-105): a fresh grid of the fixed dimensions
whose cells are produced by the random draw, modelled by an oracle giving
the outcome of `Math.random() > RANDOM` at each position. -/
def random (oracle : Nat → Nat → Bool) : Grid :=
  (List.range gridRows).map fun r => (List.range gridCols).map fun c => oracle r c

/-- The fixed glider pattern of `addGlider` (source lines 141-145). -/
def glider : List (List Bool) :=
  [[true, true, true], [true, false, false], [false, true, false]]

/-- Anchor row of the glider: the hovered row when set, else 50 (line 147). -/
def anchorRow : Option (Nat × Nat) → Nat
  | some p => p.1
  | none => 50

/-- Anchor column of the glider: the hovered column when set, else 50. -/
def anchorCol : Option (Nat × Nat) → Nat
  | some p => p.2
  | none => 50

/-- `addGlider` (source lines 140-168): overwrite the cells whose indices lie
in the 3 by 3 window anchored at the hover cell (default (50,50)) with the
glider pattern and keep every other cell. -/
def addGlider (cells : Grid) (mouseOverCell : Option (Nat × Nat)) : Grid :=
  let inputRow := anchorRow mouseOverCell
  let inputColumn := anchorCol mouseOverCell
  cells.mapIdx fun rowIndex row =>
    row.mapIdx fun cellIndex cell =>
      if inputRow ≤ rowIndex ∧ rowIndex < inputRow + glider.length ∧
          inputColumn ≤ cellIndex ∧
          cellIndex < inputColumn + (glider.headD []).length then
        cellAt glider (rowIndex - inputRow) (cellIndex - inputColumn)
      else cell

/-- `toggleCell` (source lines 241-264): flip the cell at row `y / CELL_SIZE`
and column `x / CELL_SIZE` and keep every other cell. -/
def toggleCell (cells : Grid) (x y : Nat) : Grid :=
  let rowIndex := y / CELL_SIZE
  let cellIndex := x / CELL_SIZE
  cells.mapIdx fun rIndex row =>
    if rIndex = rowIndex then
      row.mapIdx fun cIndex cell => if cIndex = cellIndex then !cell else cell
    else row

/-- The state slices of the widget that the run/visibility machinery touches:
the grid, `systemRunning` (visibility), `userRunning` (user intent) and the
derived `running` flag. -/
structure WidgetState where
  cells : Grid
  systemRunning : Bool
  userRunning : Bool
  running : Bool
deriving Repr, DecidableEq

/-- The effect of source lines 377-383: recompute `running` as the
conjunction of `systemRunning` and `userRunning`. -/
def applyDerive (s : WidgetState) : WidgetState :=
  { s with running := s.systemRunning && s.userRunning }

/-- The events of the widget: the run button / space key, the p, s, c, r and
g keys, a visibility change reported by the intersection observer, and a
firing of the 100 ms interval timer. -/
inductive Event where
  | runClick : Event
  | keyP : Event
  | keyS : Event
  | keyC : Event
  | keyR (oracle : Nat → Nat → Bool) : Event
  | keyG (hover : Option (Nat × Nat)) : Event
  | setInView (b : Bool) : Event
  | tick : Event

/-- One event-handler step of the widget.  `runClick` toggles `userRunning`
and (that dependency having changed) reruns the deriving effect; `keyP` sets
`running` to its negation directly, and since neither `systemRunning` nor
`userRunning` changed the deriving effect does not rerun; `setInView` writes
`systemRunning` and reruns the deriving effect only if the value changed; a
`tick` of the interval applies `updateGrid` and exists only while `running`
is true. -/
def stepEvent : Event → WidgetState → WidgetState
  | .runClick, s => applyDerive { s with userRunning := !s.userRunning }
  | .keyP, s => { s with running := !s.running }
  | .keyS, s => { s with cells := step s.running s.cells }
  | .keyC, s => { s with cells := clear }
  | .keyR oracle, s => { s with cells := random oracle }
  | .keyG hover, s => { s with cells := addGlider s.cells hover }
  | .setInView b, s =>
      if b = s.systemRunning then s else applyDerive { s with systemRunning := b }
  | .tick, s => if s.running then { s with cells := updateGrid s.cells } else s

/-- The mount-time state: `systemRunning`, `userRunning` and `running` all
start true (source lines 34-36); the initial grid is a parameter standing
for the random initial fill. -/
def initState (g : Grid) : WidgetState :=
  { cells := g, systemRunning := true, userRunning := true, running := true }

/-- States reachable from the mount state by event-handler steps. -/
inductive Reachable (g : Grid) : WidgetState → Prop
  | init : Reachable g (initState g)
  | step {s : WidgetState} (e : Event) : Reachable g s → Reachable g (stepEvent e s)

/-- A grid is rectangular with `r` rows and `c` columns. -/
def Rect (g : Grid) (r c : Nat) : Prop :=
  g.length = r ∧ ∀ row ∈ g, row.length = c

instance (g : Grid) (r c : Nat) : Decidable (Rect g r c) := by
  unfold Rect
  infer_instance

/-- The all-dead rectangular grid. -/
def deadGrid (r c : Nat) : Grid :=
  List.replicate r (List.replicate c false)

/-- Taken from the words of the specification: the neighbor count of a cell
examines the 8 adjacent positions, with row and column indices wrapped
modulo the number of rows and of columns respectively. -/
def specNeighborCount (g : Grid) (r c a b : Nat) : Nat :=
  (neighborOffsets.map fun d =>
    if cellAt g ((((a : Int) + d.1) % (r : Int)).toNat)
        ((((b : Int) + d.2) % (c : Int)).toNat) then 1 else 0).sum

/-- A grid whose live cells are exactly the 2 by 2 block with upper-left
corner `(i, j)`. -/
def blockGrid (r c i j : Nat) : Grid :=
  (List.range r).map fun a =>
    (List.range c).map fun b =>
      decide ((a = i ∨ a = i + 1) ∧ (b = j ∨ b = j + 1))

/-- The claimed relationship of the derived state: `running`
(EffectiveRunning) equals `systemRunning && userRunning`
(VisibilityRunnable AND RunIntent). -/
def runInv (s : WidgetState) : Prop :=
  s.running = (s.systemRunning && s.userRunning)

instance (s : WidgetState) : Decidable (runInv s) := by
  unfold runInv
  infer_instance

/-! ## Generic list lemmas -/

theorem getD_mapIdx {α : Type} (l : List α) (f : Nat → α → α) (i : Nat) (d : α) :
    (l.mapIdx f).getD i d = if h : i < l.length then f i l[i] else d := by
  by_cases h : i < l.length
  · rw [dif_pos h, List.getD_eq_getElem _ _ (by simpa [List.length_mapIdx] using h)]
    exact List.getElem_mapIdx
  · rw [dif_neg h, List.getD_eq_default]
    simp only [List.length_mapIdx]
    omega

theorem getD_replicate {α : Type} (n : Nat) (a d : α) (i : Nat) :
    (List.replicate n a).getD i d = if i < n then a else d := by
  by_cases h : i < n
  · rw [if_pos h, List.getD_eq_getElem _ _ (by simpa using h)]
    exact List.getElem_replicate a _
  · rw [if_neg h, List.getD_eq_default]
    simp only [List.length_replicate]
    omega

theorem getD_range_map {α : Type} (n : Nat) (f : Nat → α) (i : Nat) (d : α) :
    (((List.range n).map f).getD i d) = if i < n then f i else d := by
  by_cases h : i < n
  · rw [if_pos h, List.getD_eq_getElem _ _ (by simpa using h)]
    simp
  · rw [if_neg h, List.getD_eq_default]
    simp only [List.length_map, List.length_range]
    omega

theorem grid_ext {g h : Grid} (h1 : g.length = h.length)
    (h2 : ∀ i, i < g.length → (g.getD i []).length = (h.getD i []).length)
    (h3 : ∀ i j, i < g.length → j < (g.getD i []).length →
      (g.getD i []).getD j false = (h.getD i []).getD j false) : g = h := by
  apply List.ext_getElem h1
  intro i hi hi2
  apply List.ext_getElem
  · have := h2 i hi
    rwa [List.getD_eq_getElem _ _ hi, List.getD_eq_getElem _ _ hi2] at this
  · intro j hj hj2
    have := h3 i j hi (by rwa [List.getD_eq_getElem _ _ hi])
    rwa [List.getD_eq_getElem _ _ hi, List.getD_eq_getElem _ _ hi2,
      List.getD_eq_getElem _ _ hj, List.getD_eq_getElem _ _ hj2] at this

/-! ## Wrapped-index lemmas -/

theorem add_cast_emod_self (a : Int) (n : Nat) :
    (a + (n : Int)) % (n : Int) = a % (n : Int) := by
  have h := Int.add_mul_emod_self_left a (n : Int) 1
  rwa [Int.mul_one] at h

theorem wrapIdx_emod (n base : Nat) (d : Int) :
    wrapIdx n base d = (((base : Int) + d) % (n : Int)).toNat := by
  unfold wrapIdx
  rw [add_cast_emod_self]

theorem wrapIdx_lt (n base : Nat) (d : Int) (hn : 0 < n) : wrapIdx n base d < n := by
  rw [wrapIdx_emod]
  have h1 : ((base : Int) + d) % (n : Int) < (n : Int) :=
    Int.emod_lt_of_pos _ (by exact_mod_cast hn)
  omega

theorem wrapIdx_closed (n base : Nat) (d : Int) (hd : -1 ≤ d ∧ d ≤ 1) (hb : base < n) :
    wrapIdx n base d =
      if (base : Int) + d < 0 then n - 1
      else if (n : Int) ≤ (base : Int) + d then 0
      else ((base : Int) + d).toNat := by
  rw [wrapIdx_emod]
  by_cases h0 : (base : Int) + d < 0
  · rw [if_pos h0]
    have he : (base : Int) + d = -1 := by omega
    have h1 : ((-1 : Int) + n) % (n : Int) = (-1 : Int) % n := add_cast_emod_self (-1) n
    have h2 : ((-1 : Int) + n) % (n : Int) = -1 + n := Int.emod_eq_of_lt (by omega) (by omega)
    rw [he]
    omega
  · rw [if_neg h0]
    by_cases h1 : (n : Int) ≤ (base : Int) + d
    · rw [if_pos h1]
      have he : (base : Int) + d = n := by omega
      rw [he, Int.emod_self]
      rfl
    · rw [if_neg h1]
      rw [Int.emod_eq_of_lt (by omega) (by omega)]

theorem wrapIdx_block_iff (n i base : Nat) (d : Int) (hd : -1 ≤ d ∧ d ≤ 1)
    (hb : base < n) (h1 : 1 ≤ i) (h2 : i + 3 ≤ n) :
    ((wrapIdx n base d = i ∨ wrapIdx n base d = i + 1) ↔
      ((base : Int) + d = i ∨ (base : Int) + d = (i : Int) + 1)) := by
  rw [wrapIdx_closed n base d hd hb]
  split_ifs with h3 h4
  all_goals try simp only [or_false, false_or]
  all_goals omega

/-! ## Grid shape and lookup lemmas -/

theorem Rect.length {g : Grid} {r c : Nat} (h : Rect g r c) : g.length = r := h.1

theorem Rect.row_length {g : Grid} {r c : Nat} (h : Rect g r c) (i : Nat) (hi : i < r) :
    (g.getD i []).length = c := by
  have hi2 : i < g.length := by rw [h.1]; exact hi
  rw [List.getD_eq_getElem _ _ hi2]
  exact h.2 _ (List.getElem_mem hi2)

theorem Rect.headD_length {g : Grid} {r c : Nat} (h : Rect g r c) (hr : 0 < r) :
    (g.headD []).length = c := by
  cases g with
  | nil => simp [Rect] at h; omega
  | cons hd tl => exact h.2 hd (List.mem_cons_self hd tl)

theorem rect_deadGrid (r c : Nat) : Rect (deadGrid r c) r c := by
  constructor
  · simp [deadGrid]
  · intro row hrow
    rw [List.eq_of_mem_replicate hrow]
    simp

theorem cellAt_deadGrid (r c a b : Nat) : cellAt (deadGrid r c) a b = false := by
  unfold cellAt deadGrid
  rw [getD_replicate]
  split
  · rw [getD_replicate]
    split <;> rfl
  · rfl

theorem clear_eq_deadGrid : clear = deadGrid gridRows gridCols := rfl

theorem rect_blockGrid (r c i j : Nat) : Rect (blockGrid r c i j) r c := by
  constructor
  · simp [blockGrid]
  · intro row hrow
    simp only [blockGrid, List.mem_map] at hrow
    obtain ⟨a, _, ha⟩ := hrow
    rw [← ha]
    simp

theorem cellAt_blockGrid (r c i j a b : Nat) (ha : a < r) (hb : b < c) :
    cellAt (blockGrid r c i j) a b =
      decide ((a = i ∨ a = i + 1) ∧ (b = j ∨ b = j + 1)) := by
  unfold cellAt blockGrid
  rw [getD_range_map, if_pos ha, getD_range_map, if_pos hb]

theorem cellAt_rect_false {g : Grid} {r c : Nat} (h : Rect g r c) (a b : Nat)
    (hab : r ≤ a ∨ c ≤ b) : cellAt g a b = false := by
  unfold cellAt
  rcases hab with hr | hc
  · have h0 : g.getD a [] = [] := List.getD_eq_default _ _ (by rw [h.1]; exact hr)
    rw [h0]
    rfl
  · by_cases ha : a < r
    · exact List.getD_eq_default _ _ (by rw [h.row_length a ha]; exact hc)
    · have h0 : g.getD a [] = [] := List.getD_eq_default _ _ (by rw [h.1]; omega)
      rw [h0]
      rfl

theorem foldl_guard_count {A : Type} (L : List A) (P : A → Prop) [DecidablePred P]
    (Q : A → Bool) (n : Nat) :
    L.foldl (fun acc d => if P d then (if Q d then acc + 1 else acc) else acc) n
      = n + (L.map fun d => if P d then (if Q d then 1 else 0) else 0).sum := by
  induction L generalizing n with
  | nil => simp
  | cons hd tl ih =>
    rw [List.foldl_cons, ih, List.map_cons, List.sum_cons]
    split_ifs <;> omega

theorem countNeighbors_eq_spec {g : Grid} {r c : Nat} (h : Rect g r c)
    (hr : 0 < r) (hc : 0 < c) (a b : Nat) :
    countNeighbors g a b = specNeighborCount g r c a b := by
  have hlen : g.length = r := h.length
  have hhead : (g.headD []).length = c := h.headD_length hr
  have hg0 : 0 < g.length := by omega
  have hh0 : 0 < (g.headD []).length := by omega
  have h1 : countNeighbors g a b =
      0 + (neighborOffsets.map fun d =>
        if (wrapIdx g.length a d.1 < g.length ∧
            wrapIdx (g.headD []).length b d.2 < (g.headD []).length) then
          (if cellAt g (wrapIdx g.length a d.1) (wrapIdx (g.headD []).length b d.2)
            then 1 else 0)
        else 0).sum :=
    foldl_guard_count neighborOffsets
      (fun d => wrapIdx g.length a d.1 < g.length ∧
        wrapIdx (g.headD []).length b d.2 < (g.headD []).length)
      (fun d => cellAt g (wrapIdx g.length a d.1) (wrapIdx (g.headD []).length b d.2))
      0
  have hR : ∀ base d, wrapIdx g.length base d < g.length :=
    fun base d => wrapIdx_lt _ base d hg0
  have hC : ∀ base d, wrapIdx (g.headD []).length base d < (g.headD []).length :=
    fun base d => wrapIdx_lt _ base d hh0
  rw [h1]
  simp only [hR, hC, and_self, if_true]
  simp only [wrapIdx_emod, hlen, hhead, Nat.zero_add]
  rfl

theorem rect_mapIdx {g : Grid} {r c : Nat} (h : Rect g r c)
    (F : Nat → List Cell → List Cell)
    (hF : ∀ i row, (F i row).length = row.length) : Rect (g.mapIdx F) r c := by
  constructor
  · simp [List.length_mapIdx, h.1]
  · intro row hrow
    rw [List.mem_iff_getElem] at hrow
    obtain ⟨i, hi, hrow⟩ := hrow
    have hi2 : i < g.length := by simpa [List.length_mapIdx] using hi
    rw [← hrow, List.getElem_mapIdx, hF]
    exact h.2 _ (List.getElem_mem hi2)

theorem rect_updateGrid {g : Grid} {r c : Nat} (h : Rect g r c) :
    Rect (updateGrid g) r c := by
  apply rect_mapIdx h
  intro i row
  simp [List.length_mapIdx]

theorem cellAt_updateGrid (g : Grid) (a b : Nat) (ha : a < g.length)
    (hb : b < (g.getD a []).length) :
    cellAt (updateGrid g) a b =
      (if (g.getD a []).getD b false then
        (countNeighbors g a b == 2 || countNeighbors g a b == 3)
      else countNeighbors g a b == 3) := by
  have hga : g.getD a [] = g[a] := List.getD_eq_getElem _ _ ha
  rw [hga] at hb ⊢
  unfold cellAt updateGrid
  rw [getD_mapIdx, dif_pos ha, getD_mapIdx, dif_pos hb, List.getD_eq_getElem _ _ hb]

theorem countNeighbors_dead (r c a b : Nat) :
    countNeighbors (deadGrid r c) a b = 0 := by
  unfold countNeighbors
  simp only [neighborOffsets, List.foldl_cons, List.foldl_nil, cellAt_deadGrid,
    Bool.false_eq_true, if_false, ite_self]

theorem updateGrid_dead (r c : Nat) : updateGrid (deadGrid r c) = deadGrid r c := by
  have hd := rect_deadGrid r c
  have hu := rect_updateGrid hd
  apply grid_ext
  · rw [hu.length, hd.length]
  · intro i hi
    rw [hu.length] at hi
    rw [hu.row_length i hi, hd.row_length i hi]
  · intro i j hi hj
    rw [hu.length] at hi
    rw [hu.row_length i hi] at hj
    show cellAt (updateGrid (deadGrid r c)) i j = cellAt (deadGrid r c) i j
    rw [cellAt_updateGrid (deadGrid r c) i j (by rw [hd.length]; exact hi)
      (by rw [hd.row_length i hi]; exact hj)]
    have h0 : (deadGrid r c).getD i [] = List.replicate c false := by
      unfold deadGrid
      rw [getD_replicate, if_pos hi]
    rw [cellAt_deadGrid, h0, getD_replicate, countNeighbors_dead]
    split <;> rfl

theorem rect_clear : Rect clear gridRows gridCols :=
  rect_deadGrid gridRows gridCols

theorem rect_random (oracle : Nat → Nat → Bool) :
    Rect (random oracle) gridRows gridCols := by
  constructor
  · simp [random]
  · intro row hrow
    simp only [random, List.mem_map] at hrow
    obtain ⟨a, _, ha⟩ := hrow
    rw [← ha]
    simp

theorem rect_toggleCell {g : Grid} {r c : Nat} (h : Rect g r c) (x y : Nat) :
    Rect (toggleCell g x y) r c := by
  apply rect_mapIdx h
  intro i row
  split
  · simp [List.length_mapIdx]
  · rfl

theorem rect_addGlider {g : Grid} {r c : Nat} (h : Rect g r c)
    (hover : Option (Nat × Nat)) : Rect (addGlider g hover) r c := by
  apply rect_mapIdx h
  intro i row
  simp [List.length_mapIdx]

theorem rect_step {g : Grid} {r c : Nat} (h : Rect g r c) (running : Bool) :
    Rect (step running g) r c := by
  unfold step
  split
  · exact h
  · exact rect_updateGrid h

theorem cellAt_toggleCell (g : Grid) (x y i j : Nat) :
    cellAt (toggleCell g x y) i j =
      if i = y / CELL_SIZE ∧ j = x / CELL_SIZE ∧ i < g.length ∧
          j < (g.getD i []).length
      then !(cellAt g i j) else cellAt g i j := by
  unfold toggleCell cellAt
  rw [getD_mapIdx]
  by_cases hi : i < g.length
  · rw [dif_pos hi]
    have hgi : g.getD i [] = g[i] := List.getD_eq_getElem _ _ hi
    by_cases hir : i = y / CELL_SIZE
    · rw [if_pos hir, getD_mapIdx]
      by_cases hj : j < g[i].length
      · rw [dif_pos hj]
        by_cases hjc : j = x / CELL_SIZE
        · rw [if_pos hjc, if_pos ⟨hir, hjc, hi, by rw [hgi]; exact hj⟩, hgi,
            List.getD_eq_getElem _ _ hj]
        · rw [if_neg hjc, if_neg (by tauto), hgi, List.getD_eq_getElem _ _ hj]
      · rw [dif_neg hj, if_neg (by rw [hgi]; tauto), hgi,
          List.getD_eq_default _ _ (by omega)]
    · rw [if_neg hir, if_neg (by tauto), hgi]
  · rw [dif_neg hi, if_neg (by tauto)]
    have h0 : g.getD i [] = [] := List.getD_eq_default _ _ (by omega)
    rw [h0]

theorem toggleCell_length (g : Grid) (x y : Nat) :
    (toggleCell g x y).length = g.length := by
  simp [toggleCell, List.length_mapIdx]

theorem toggleCell_row_length (g : Grid) (x y i : Nat) :
    ((toggleCell g x y).getD i []).length = (g.getD i []).length := by
  unfold toggleCell
  rw [getD_mapIdx]
  by_cases hi : i < g.length
  · rw [dif_pos hi, List.getD_eq_getElem _ _ hi]
    split
    · simp [List.length_mapIdx]
    · rfl
  · rw [dif_neg hi, List.getD_eq_default _ _ (by omega)]

theorem toggleCell_involution (g : Grid) (x y : Nat) :
    toggleCell (toggleCell g x y) x y = g := by
  apply grid_ext
  · rw [toggleCell_length, toggleCell_length]
  · intro i hi
    rw [toggleCell_row_length, toggleCell_row_length]
  · intro i j hi hj
    show cellAt (toggleCell (toggleCell g x y) x y) i j = cellAt g i j
    rw [cellAt_toggleCell, cellAt_toggleCell, toggleCell_length,
      toggleCell_row_length]
    split <;> simp

theorem glider_length : glider.length = 3 := rfl

theorem glider_head_length : (glider.headD []).length = 3 := rfl

theorem cellAt_addGlider (g : Grid) (hover : Option (Nat × Nat)) (i j : Nat) :
    cellAt (addGlider g hover) i j =
      if anchorRow hover ≤ i ∧ i < anchorRow hover + 3 ∧
          anchorCol hover ≤ j ∧ j < anchorCol hover + 3 ∧
          i < g.length ∧ j < (g.getD i []).length
      then cellAt glider (i - anchorRow hover) (j - anchorCol hover)
      else cellAt g i j := by
  unfold addGlider cellAt
  rw [getD_mapIdx]
  by_cases hi : i < g.length
  · rw [dif_pos hi]
    have hgi : g.getD i [] = g[i] := List.getD_eq_getElem _ _ hi
    rw [getD_mapIdx]
    by_cases hj : j < g[i].length
    · rw [dif_pos hj]
      rw [glider_length, glider_head_length]
      by_cases hf : anchorRow hover ≤ i ∧ i < anchorRow hover + 3 ∧
          anchorCol hover ≤ j ∧ j < anchorCol hover + 3
      · rw [if_pos ⟨hf.1, hf.2.1, hf.2.2.1, hf.2.2.2⟩,
          if_pos ⟨hf.1, hf.2.1, hf.2.2.1, hf.2.2.2, hi, by rw [hgi]; exact hj⟩]
      · rw [if_neg (by tauto), if_neg (by tauto), hgi,
          List.getD_eq_getElem _ _ hj]
    · rw [dif_neg hj, if_neg (by rw [hgi]; tauto), hgi,
        List.getD_eq_default _ _ (by omega)]
  · rw [dif_neg hi, if_neg (by tauto)]
    have h0 : g.getD i [] = [] := List.getD_eq_default _ _ (by omega)
    rw [h0]

theorem addGlider_out_of_range {g : Grid} {r c : Nat} (h : Rect g r c)
    (hover : Option (Nat × Nat))
    (hout : r ≤ anchorRow hover ∨ c ≤ anchorCol hover) : addGlider g hover = g := by
  apply grid_ext
  · rw [(rect_addGlider h hover).length, h.length]
  · intro i hi
    rw [(rect_addGlider h hover).length] at hi
    rw [(rect_addGlider h hover).row_length i hi, h.row_length i hi]
  · intro i j hi hj
    rw [(rect_addGlider h hover).length] at hi
    rw [(rect_addGlider h hover).row_length i hi] at hj
    show cellAt (addGlider g hover) i j = cellAt g i j
    rw [cellAt_addGlider,
      if_neg (by
        rintro ⟨h1, h2, h3, h4, h5, h6⟩
        rw [h.length] at h5
        rw [h.row_length i hi] at h6
        omega)]

theorem toggleCell_out_of_range {g : Grid} {r c : Nat} (h : Rect g r c) (x y : Nat)
    (hout : r ≤ y / CELL_SIZE ∨ c ≤ x / CELL_SIZE) : toggleCell g x y = g := by
  apply grid_ext
  · rw [toggleCell_length]
  · intro i hi
    rw [toggleCell_row_length]
  · intro i j hi hj
    rw [toggleCell_length] at hi
    rw [toggleCell_row_length] at hj
    show cellAt (toggleCell g x y) i j = cellAt g i j
    rw [cellAt_toggleCell,
      if_neg (by
        rintro ⟨h1, h2, h3, h4⟩
        rw [h.length] at h3
        rw [h.row_length i (by rw [h.length] at hi; exact hi)] at h4
        omega)]

theorem countNeighbors_blockGrid (r c i j a b : Nat) (hi1 : 1 ≤ i) (hi2 : i + 3 ≤ r)
    (hj1 : 1 ≤ j) (hj2 : j + 3 ≤ c) (ha : a < r) (hb : b < c) :
    countNeighbors (blockGrid r c i j) a b =
      (neighborOffsets.map fun d =>
        if ((a : Int) + d.1 = i ∨ (a : Int) + d.1 = (i : Int) + 1) ∧
            ((b : Int) + d.2 = j ∨ (b : Int) + d.2 = (j : Int) + 1) then 1 else 0).sum := by
  rw [countNeighbors_eq_spec (rect_blockGrid r c i j) (by omega) (by omega)]
  unfold specNeighborCount
  have hR : ∀ base d, wrapIdx r base d < r := fun base d => wrapIdx_lt r base d (by omega)
  have hC : ∀ base d, wrapIdx c base d < c := fun base d => wrapIdx_lt c base d (by omega)
  have hcell : ∀ p q, p < r → q < c → cellAt (blockGrid r c i j) p q =
      decide ((p = i ∨ p = i + 1) ∧ (q = j ∨ q = j + 1)) :=
    fun p q hp hq => cellAt_blockGrid r c i j p q hp hq
  have hrow : ∀ d : Int, -1 ≤ d ∧ d ≤ 1 →
      ((wrapIdx r a d = i ∨ wrapIdx r a d = i + 1) ↔
        ((a : Int) + d = i ∨ (a : Int) + d = (i : Int) + 1)) :=
    fun d hd => wrapIdx_block_iff r i a d hd ha hi1 hi2
  have hcol : ∀ d : Int, -1 ≤ d ∧ d ≤ 1 →
      ((wrapIdx c b d = j ∨ wrapIdx c b d = j + 1) ↔
        ((b : Int) + d = j ∨ (b : Int) + d = (j : Int) + 1)) :=
    fun d hd => wrapIdx_block_iff c j b d hd hb hj1 hj2
  have hrow1 := hrow (-1) (by omega)
  have hrow0 := hrow 0 (by omega)
  have hrow2 := hrow 1 (by omega)
  have hcol1 := hcol (-1) (by omega)
  have hcol0 := hcol 0 (by omega)
  have hcol2 := hcol 1 (by omega)
  simp only [neighborOffsets, List.map_cons, List.map_nil, List.sum_cons, List.sum_nil]
  simp only [← wrapIdx_emod]
  simp only [hcell, hR, hC, decide_eq_true_eq, hrow1, hrow0, hrow2, hcol1, hcol0, hcol2]

set_option maxHeartbeats 3200000 in
theorem block_live_count (i j a b : Nat)
    (hP : (a = i ∨ a = i + 1) ∧ (b = j ∨ b = j + 1)) :
    (if ((a : Int) + -1 = (i : Int) ∨ (a : Int) + -1 = (i : Int) + 1) ∧ ((b : Int) + -1 = (j : Int) ∨ (b : Int) + -1 = (j : Int) + 1) then 1 else 0) + ((if ((a : Int) + -1 = (i : Int) ∨ (a : Int) + -1 = (i : Int) + 1) ∧ ((b : Int) + 0 = (j : Int) ∨ (b : Int) + 0 = (j : Int) + 1) then 1 else 0) + ((if ((a : Int) + -1 = (i : Int) ∨ (a : Int) + -1 = (i : Int) + 1) ∧ ((b : Int) + 1 = (j : Int) ∨ (b : Int) + 1 = (j : Int) + 1) then 1 else 0) + ((if ((a : Int) + 0 = (i : Int) ∨ (a : Int) + 0 = (i : Int) + 1) ∧ ((b : Int) + -1 = (j : Int) ∨ (b : Int) + -1 = (j : Int) + 1) then 1 else 0) + ((if ((a : Int) + 0 = (i : Int) ∨ (a : Int) + 0 = (i : Int) + 1) ∧ ((b : Int) + 1 = (j : Int) ∨ (b : Int) + 1 = (j : Int) + 1) then 1 else 0) + ((if ((a : Int) + 1 = (i : Int) ∨ (a : Int) + 1 = (i : Int) + 1) ∧ ((b : Int) + -1 = (j : Int) ∨ (b : Int) + -1 = (j : Int) + 1) then 1 else 0) + ((if ((a : Int) + 1 = (i : Int) ∨ (a : Int) + 1 = (i : Int) + 1) ∧ ((b : Int) + 0 = (j : Int) ∨ (b : Int) + 0 = (j : Int) + 1) then 1 else 0) + ((if ((a : Int) + 1 = (i : Int) ∨ (a : Int) + 1 = (i : Int) + 1) ∧ ((b : Int) + 1 = (j : Int) ∨ (b : Int) + 1 = (j : Int) + 1) then 1 else 0) + 0))))))) = 2 ∨
    (if ((a : Int) + -1 = (i : Int) ∨ (a : Int) + -1 = (i : Int) + 1) ∧ ((b : Int) + -1 = (j : Int) ∨ (b : Int) + -1 = (j : Int) + 1) then 1 else 0) + ((if ((a : Int) + -1 = (i : Int) ∨ (a : Int) + -1 = (i : Int) + 1) ∧ ((b : Int) + 0 = (j : Int) ∨ (b : Int) + 0 = (j : Int) + 1) then 1 else 0) + ((if ((a : Int) + -1 = (i : Int) ∨ (a : Int) + -1 = (i : Int) + 1) ∧ ((b : Int) + 1 = (j : Int) ∨ (b : Int) + 1 = (j : Int) + 1) then 1 else 0) + ((if ((a : Int) + 0 = (i : Int) ∨ (a : Int) + 0 = (i : Int) + 1) ∧ ((b : Int) + -1 = (j : Int) ∨ (b : Int) + -1 = (j : Int) + 1) then 1 else 0) + ((if ((a : Int) + 0 = (i : Int) ∨ (a : Int) + 0 = (i : Int) + 1) ∧ ((b : Int) + 1 = (j : Int) ∨ (b : Int) + 1 = (j : Int) + 1) then 1 else 0) + ((if ((a : Int) + 1 = (i : Int) ∨ (a : Int) + 1 = (i : Int) + 1) ∧ ((b : Int) + -1 = (j : Int) ∨ (b : Int) + -1 = (j : Int) + 1) then 1 else 0) + ((if ((a : Int) + 1 = (i : Int) ∨ (a : Int) + 1 = (i : Int) + 1) ∧ ((b : Int) + 0 = (j : Int) ∨ (b : Int) + 0 = (j : Int) + 1) then 1 else 0) + ((if ((a : Int) + 1 = (i : Int) ∨ (a : Int) + 1 = (i : Int) + 1) ∧ ((b : Int) + 1 = (j : Int) ∨ (b : Int) + 1 = (j : Int) + 1) then 1 else 0) + 0))))))) = 3 := by
  split_ifs <;> omega

set_option maxHeartbeats 3200000 in
theorem block_dead_count (i j a b : Nat)
    (hP : ¬((a = i ∨ a = i + 1) ∧ (b = j ∨ b = j + 1))) :
    ¬((if ((a : Int) + -1 = (i : Int) ∨ (a : Int) + -1 = (i : Int) + 1) ∧ ((b : Int) + -1 = (j : Int) ∨ (b : Int) + -1 = (j : Int) + 1) then 1 else 0) + ((if ((a : Int) + -1 = (i : Int) ∨ (a : Int) + -1 = (i : Int) + 1) ∧ ((b : Int) + 0 = (j : Int) ∨ (b : Int) + 0 = (j : Int) + 1) then 1 else 0) + ((if ((a : Int) + -1 = (i : Int) ∨ (a : Int) + -1 = (i : Int) + 1) ∧ ((b : Int) + 1 = (j : Int) ∨ (b : Int) + 1 = (j : Int) + 1) then 1 else 0) + ((if ((a : Int) + 0 = (i : Int) ∨ (a : Int) + 0 = (i : Int) + 1) ∧ ((b : Int) + -1 = (j : Int) ∨ (b : Int) + -1 = (j : Int) + 1) then 1 else 0) + ((if ((a : Int) + 0 = (i : Int) ∨ (a : Int) + 0 = (i : Int) + 1) ∧ ((b : Int) + 1 = (j : Int) ∨ (b : Int) + 1 = (j : Int) + 1) then 1 else 0) + ((if ((a : Int) + 1 = (i : Int) ∨ (a : Int) + 1 = (i : Int) + 1) ∧ ((b : Int) + -1 = (j : Int) ∨ (b : Int) + -1 = (j : Int) + 1) then 1 else 0) + ((if ((a : Int) + 1 = (i : Int) ∨ (a : Int) + 1 = (i : Int) + 1) ∧ ((b : Int) + 0 = (j : Int) ∨ (b : Int) + 0 = (j : Int) + 1) then 1 else 0) + ((if ((a : Int) + 1 = (i : Int) ∨ (a : Int) + 1 = (i : Int) + 1) ∧ ((b : Int) + 1 = (j : Int) ∨ (b : Int) + 1 = (j : Int) + 1) then 1 else 0) + 0))))))) = 3) := by
  split_ifs <;> omega

set_option maxHeartbeats 3200000 in
theorem blockGrid_fixed (r c i j : Nat) (hi1 : 1 ≤ i) (hi2 : i + 3 ≤ r)
    (hj1 : 1 ≤ j) (hj2 : j + 3 ≤ c) :
    updateGrid (blockGrid r c i j) = blockGrid r c i j := by
  have hB := rect_blockGrid r c i j
  have hU := rect_updateGrid hB
  apply grid_ext
  · rw [hU.length, hB.length]
  · intro a ha
    rw [hU.length] at ha
    rw [hU.row_length a ha, hB.row_length a ha]
  · intro a b ha hb
    rw [hU.length] at ha
    rw [hU.row_length a ha] at hb
    show cellAt (updateGrid (blockGrid r c i j)) a b = cellAt (blockGrid r c i j) a b
    rw [cellAt_updateGrid _ a b (by rw [hB.length]; exact ha)
      (by rw [hB.row_length a ha]; exact hb)]
    have hgb : ((blockGrid r c i j).getD a []).getD b false
        = cellAt (blockGrid r c i j) a b := rfl
    rw [hgb, cellAt_blockGrid r c i j a b ha hb,
      countNeighbors_blockGrid r c i j a b hi1 hi2 hj1 hj2 ha hb]
    simp only [neighborOffsets, List.map_cons, List.map_nil, List.sum_cons, List.sum_nil]
    simp only [decide_eq_true_eq, Bool.or_eq_true, beq_iff_eq]
    by_cases hP : (a = i ∨ a = i + 1) ∧ (b = j ∨ b = j + 1)
    · rw [if_pos hP, decide_eq_true hP]
      simp only [Bool.or_eq_true, beq_iff_eq, eq_iff_iff, iff_true]
      exact block_live_count i j a b hP
    · rw [if_neg hP, decide_eq_false hP]
      simp only [beq_eq_false_iff_ne, ne_eq, eq_iff_iff, iff_false]
      exact block_dead_count i j a b hP

/-! ## State machine lemmas -/

theorem runInv_init (g : Grid) : runInv (initState g) := rfl

theorem runInv_preserved (s : WidgetState) (e : Event) (he : e ≠ Event.keyP)
    (h : runInv s) : runInv (stepEvent e s) := by
  cases e with
  | runClick => simp [stepEvent, applyDerive, runInv]
  | keyP => exact absurd rfl he
  | keyS => exact h
  | keyC => exact h
  | keyR oracle => exact h
  | keyG hover => exact h
  | setInView b =>
    simp only [stepEvent]
    split
    · exact h
    · simp [applyDerive, runInv]
  | tick =>
    simp only [stepEvent]
    split
    · exact h
    · exact h

theorem tick_gated (s : WidgetState) :
    (stepEvent Event.tick s).cells =
      (if s.running then updateGrid s.cells else s.cells) := by
  simp only [stepEvent]
  split <;> simp_all

theorem tick_stopped (s : WidgetState) (h : runInv s)
    (hsys : s.systemRunning = false) : stepEvent Event.tick s = s := by
  have hrun : s.running = false := by
    rw [h, hsys]
    rfl
  simp only [stepEvent, hrun]
  simp

/-! ## Claim theorems -/

/-- C6: the step operation applies the transition engine exactly once when
EffectiveRunning is false, and is a no-op (grid unchanged) when
EffectiveRunning is true. -/
theorem C6_step_gating (g : Grid) : step false g = updateGrid g ∧ step true g = g :=
  ⟨rfl, rfl⟩

/-- C7: the all-dead grid is a fixed point of the transition function (of
identical dimensions), and clear() followed by step() while paused leaves
the grid all-dead and unchanged. -/
theorem C7_dead_fixed_point :
    (∀ r c, updateGrid (deadGrid r c) = deadGrid r c) ∧
    step false clear = clear ∧ clear = deadGrid gridRows gridCols :=
  ⟨updateGrid_dead, updateGrid_dead gridRows gridCols, rfl⟩

/-- C5: every grid-replacing operation (simulation step, randomize, clear,
single-cell toggle, glider insertion) preserves the grid shape of
rows = 1080/10 = 108 rows and cols = 1920/10 = 192 columns. -/
theorem C5_shape_invariant (g : Grid) (h : Rect g gridRows gridCols)
    (x y : Nat) (hover : Option (Nat × Nat)) (oracle : Nat → Nat → Bool)
    (running : Bool) :
    gridRows = 108 ∧ gridCols = 192 ∧
    Rect (updateGrid g) gridRows gridCols ∧
    Rect clear gridRows gridCols ∧
    Rect (random oracle) gridRows gridCols ∧
    Rect (toggleCell g x y) gridRows gridCols ∧
    Rect (addGlider g hover) gridRows gridCols ∧
    Rect (step running g) gridRows gridCols :=
  ⟨rfl, rfl, rect_updateGrid h, rect_clear, rect_random oracle,
    rect_toggleCell h x y, rect_addGlider h hover, rect_step h running⟩

/-- C5 witness: the shape invariant applied to the cleared grid. -/
theorem C5_shape_invariant_witness :
    Rect clear gridRows gridCols ∧ Rect (updateGrid clear) gridRows gridCols :=
  ⟨rect_clear,
    (C5_shape_invariant clear rect_clear 13 7 none (fun n m => n + m = 1) true).2.2.1⟩

/-- C4: a pointer click at pixel (x, y) toggles exactly the cell at row
floor(y/10) and column floor(x/10), leaves every other cell unchanged, and
toggling twice restores the original grid. -/
theorem C4_pointer_toggle (g : Grid) (x y : Nat) :
    CELL_SIZE = 10 ∧
    (y / CELL_SIZE < g.length → x / CELL_SIZE < (g.getD (y / CELL_SIZE) []).length →
      cellAt (toggleCell g x y) (y / CELL_SIZE) (x / CELL_SIZE)
        = !(cellAt g (y / CELL_SIZE) (x / CELL_SIZE))) ∧
    (∀ i j, ¬(i = y / CELL_SIZE ∧ j = x / CELL_SIZE) →
      cellAt (toggleCell g x y) i j = cellAt g i j) ∧
    toggleCell (toggleCell g x y) x y = g := by
  refine ⟨rfl, ?_, ?_, toggleCell_involution g x y⟩
  · intro h1 h2
    rw [cellAt_toggleCell, if_pos ⟨rfl, rfl, h1, h2⟩]
  · intro i j hij
    rw [cellAt_toggleCell, if_neg (by tauto)]

/-- C4 witness: the toggle at pixel (13, 7) on a concrete 2 by 2 grid flips
cell (0, 1). -/
theorem C4_pointer_toggle_witness :
    7 / CELL_SIZE < 2 ∧ 13 / CELL_SIZE < 2 ∧
    cellAt (toggleCell [[true, false], [false, true]] 13 7) 0 1
      = !(cellAt [[true, false], [false, true]] 0 1) :=
  ⟨by decide, by decide,
    (C4_pointer_toggle [[true, false], [false, true]] 13 7).2.1
      (by decide) (by decide)⟩

/-- C9: grid mutation is total: a pointer click whose cell coordinates fall
outside the grid leaves the grid unchanged, and the wrapped indices of the
neighbor lookup are always inside the grid. -/
theorem C9_totality (g : Grid) (r c : Nat) (h : Rect g r c) (hr : 0 < r)
    (hc : 0 < c) (x y : Nat) :
    (r ≤ y / CELL_SIZE ∨ c ≤ x / CELL_SIZE → toggleCell g x y = g) ∧
    (∀ a b : Nat, ∀ d ∈ neighborOffsets,
      wrapIdx g.length a d.1 < g.length ∧
        wrapIdx (g.headD []).length b d.2 < (g.headD []).length) := by
  constructor
  · exact toggleCell_out_of_range h x y
  · intro a b d hd
    constructor
    · exact wrapIdx_lt _ a d.1 (by rw [h.length]; exact hr)
    · exact wrapIdx_lt _ b d.2 (by rw [h.headD_length hr]; exact hc)

/-- C9 witness: an out-of-range click (pixel row 25 on a 1 by 1 grid) leaves
the grid unchanged. -/
theorem C9_totality_witness :
    Rect [[true]] 1 1 ∧ (1 ≤ 25 / CELL_SIZE ∨ 1 ≤ 0 / CELL_SIZE) ∧
    toggleCell [[true]] 0 25 = [[true]] :=
  ⟨by decide, by decide,
    (C9_totality [[true]] 1 1 (by decide) (by decide) (by decide) 0 25).1
      (by decide)⟩

/-- C10: glider insertion does not wrap: cells outside the 3 by 3 footprint
anchored at the anchor cell are unchanged (in particular cells near the
opposite edges), and an anchor at or beyond the grid bounds leaves the grid
entirely unchanged. -/
theorem C10_glider_no_wrap (g : Grid) (r c : Nat) (h : Rect g r c)
    (hover : Option (Nat × Nat)) :
    (∀ i j, i < anchorRow hover ∨ anchorRow hover + 3 ≤ i ∨
        j < anchorCol hover ∨ anchorCol hover + 3 ≤ j →
      cellAt (addGlider g hover) i j = cellAt g i j) ∧
    (r ≤ anchorRow hover ∨ c ≤ anchorCol hover → addGlider g hover = g) := by
  constructor
  · intro i j hd
    rw [cellAt_addGlider, if_neg (by omega)]
  · exact addGlider_out_of_range h hover

/-- C10 witness: inserting with the anchor at row 5 of a 3 by 3 grid leaves
the grid unchanged. -/
theorem C10_glider_no_wrap_witness :
    Rect (deadGrid 3 3) 3 3 ∧
    (3 ≤ anchorRow (some (5, 0)) ∨ 3 ≤ anchorCol (some (5, 0))) ∧
    addGlider (deadGrid 3 3) (some (5, 0)) = deadGrid 3 3 :=
  ⟨rect_deadGrid 3 3, by decide,
    (C10_glider_no_wrap (deadGrid 3 3) 3 3 (rect_deadGrid 3 3) (some (5, 0))).2
      (by decide)⟩

/-- C8: a grid holding the canonical still-life block (a 2 by 2 live square
with all other cells dead, away from any wrap boundary) is returned
unchanged by two applications of the transition function. -/
theorem C8_block_still_life (r c i j : Nat) (hi1 : 1 ≤ i) (hi2 : i + 3 ≤ r)
    (hj1 : 1 ≤ j) (hj2 : j + 3 ≤ c) :
    updateGrid (updateGrid (blockGrid r c i j)) = blockGrid r c i j := by
  rw [blockGrid_fixed r c i j hi1 hi2 hj1 hj2,
    blockGrid_fixed r c i j hi1 hi2 hj1 hj2]

/-- C8 witness: the block at (2, 2) of a 6 by 6 grid is a fixed point of two
transition steps. -/
theorem C8_block_still_life_witness :
    1 ≤ 2 ∧ 2 + 3 ≤ 6 ∧
    updateGrid (updateGrid (blockGrid 6 6 2 2)) = blockGrid 6 6 2 2 :=
  ⟨by decide, by decide,
    C8_block_still_life 6 6 2 2 (by decide) (by decide) (by decide) (by decide)⟩

theorem neg_one_emod_toNat (n : Nat) (hn : 0 < n) :
    ((-1 : Int) % (n : Int)).toNat = n - 1 := by
  have h1 := add_cast_emod_self (-1) n
  have h2 : ((-1 : Int) + n) % (n : Int) = -1 + n :=
    Int.emod_eq_of_lt (by omega) (by omega)
  omega

/-- C1: for a non-empty rectangular grid, the transition makes a live cell
live iff it has exactly 2 or 3 live neighbors and a dead cell live iff it
has exactly 3, the neighbor count of the code equals the count over the 8
adjacent positions with indices taken modulo rows and cols, and in
particular the cell (0, 0) examines (rows-1, cols-1) as a neighbor. -/
theorem C1_transition_rule (g : Grid) (r c : Nat) (hrect : Rect g r c)
    (hr : 0 < r) (hc : 0 < c) :
    (∀ a b, a < r → b < c →
      (cellAt g a b = true →
        (cellAt (updateGrid g) a b = true ↔
          (specNeighborCount g r c a b = 2 ∨ specNeighborCount g r c a b = 3))) ∧
      (cellAt g a b = false →
        (cellAt (updateGrid g) a b = true ↔ specNeighborCount g r c a b = 3))) ∧
    (∀ a b, countNeighbors g a b = specNeighborCount g r c a b) ∧
    (wrapIdx r 0 (-1) = r - 1 ∧ wrapIdx c 0 (-1) = c - 1) ∧
    (cellAt g (r - 1) (c - 1) = true → 1 ≤ countNeighbors g 0 0) := by
  have hspec : ∀ a b, countNeighbors g a b = specNeighborCount g r c a b :=
    fun a b => countNeighbors_eq_spec hrect hr hc a b
  refine ⟨?_, hspec, ⟨?_, ?_⟩, ?_⟩
  · intro a b ha hb
    have hup := cellAt_updateGrid g a b (by rw [hrect.length]; exact ha)
      (by rw [hrect.row_length a ha]; exact hb)
    have hcg : (g.getD a []).getD b false = cellAt g a b := rfl
    rw [hcg] at hup
    constructor
    · intro hlive
      rw [hup, hlive, if_pos rfl, hspec]
      simp
    · intro hdead
      rw [hup, hdead, if_neg (by simp), hspec]
      simp
  · rw [wrapIdx_closed r 0 (-1) (by omega) hr, if_pos (by omega)]
  · rw [wrapIdx_closed c 0 (-1) (by omega) hc, if_pos (by omega)]
  · intro hlast
    rw [hspec]
    unfold specNeighborCount
    simp only [neighborOffsets, List.map_cons, List.map_nil, List.sum_cons,
      List.sum_nil]
    have hp1 : ((((0 : Nat) : Int) + (-1, -1).1) % (r : Int)).toNat = r - 1 := by
      simp only [Nat.cast_zero]
      norm_num
      exact neg_one_emod_toNat r hr
    have hp2 : ((((0 : Nat) : Int) + (-1, -1).2) % (c : Int)).toNat = c - 1 := by
      simp only [Nat.cast_zero]
      norm_num
      exact neg_one_emod_toNat c hc
    rw [hp1, hp2, hlast, if_pos rfl]
    exact Nat.le_add_right 1 _

/-- C1 witness: on a concrete 2 by 2 grid with live corners, the live cell
at (1, 1) makes the count at (0, 0) positive through the wrap-around. -/
theorem C1_transition_rule_witness :
    Rect [[true, false], [false, true]] 2 2 ∧ 0 < 2 ∧
    cellAt [[true, false], [false, true]] (2 - 1) (2 - 1) = true ∧
    1 ≤ countNeighbors [[true, false], [false, true]] 0 0 :=
  ⟨by decide, by decide, by decide,
    (C1_transition_rule [[true, false], [false, true]] 2 2 (by decide)
      (by decide) (by decide)).2.2.2 (by decide)⟩

theorem glider_cells : ∀ di, di < 3 → ∀ dj, dj < 3 →
    cellAt glider di dj =
      decide ((di, dj) ∈ ([(0, 0), (0, 1), (0, 2), (1, 0), (2, 1)] :
        List (Nat × Nat))) := by decide

/-- C3: glider insertion overwrites exactly the 3 by 3 footprint anchored at
the hover cell (else at (50, 50)) with the fixed pattern whose live offsets
are (0,0), (0,1), (0,2), (1,0), (2,1), keeps every cell outside the
footprint, and on an all-dead grid anchored at (5, 5) leaves exactly the 5
shifted offsets live. -/
theorem C3_insert_glider (g : Grid) (r c : Nat) (h : Rect g r c)
    (hover : Option (Nat × Nat)) :
    (∀ i j, anchorRow hover ≤ i → i < anchorRow hover + 3 →
      anchorCol hover ≤ j → j < anchorCol hover + 3 → i < r → j < c →
      cellAt (addGlider g hover) i j =
        decide ((i - anchorRow hover, j - anchorCol hover) ∈
          ([(0, 0), (0, 1), (0, 2), (1, 0), (2, 1)] : List (Nat × Nat)))) ∧
    (∀ i j, ¬(anchorRow hover ≤ i ∧ i < anchorRow hover + 3 ∧
        anchorCol hover ≤ j ∧ j < anchorCol hover + 3) →
      cellAt (addGlider g hover) i j = cellAt g i j) ∧
    (anchorRow none = 50 ∧ anchorCol none = 50) ∧
    (∀ r2 c2, 8 ≤ r2 → 8 ≤ c2 → ∀ i j,
      cellAt (addGlider (deadGrid r2 c2) (some (5, 5))) i j =
        decide ((i, j) ∈
          ([(5, 5), (5, 6), (5, 7), (6, 5), (7, 6)] : List (Nat × Nat)))) := by
  refine ⟨?_, ?_, ⟨rfl, rfl⟩, ?_⟩
  · intro i j h1 h2 h3 h4 hir hjc
    rw [cellAt_addGlider,
      if_pos ⟨h1, h2, h3, h4, by rw [h.length]; exact hir,
        by rw [h.row_length i hir]; exact hjc⟩]
    exact glider_cells _ (by omega) _ (by omega)
  · intro i j hij
    rw [cellAt_addGlider, if_neg (by tauto)]
  · intro r2 c2 h8r h8c i j
    have hD := rect_deadGrid r2 c2
    rw [cellAt_addGlider]
    simp only [anchorRow, anchorCol]
    by_cases hf : 5 ≤ i ∧ i < 8 ∧ 5 ≤ j ∧ j < 8
    · obtain ⟨hf1, hf2, hf3, hf4⟩ := hf
      have hi : i < r2 := by omega
      rw [if_pos ⟨hf1, by omega, hf3, by omega, by rw [hD.length]; omega,
        by rw [hD.row_length i hi]; omega⟩,
        glider_cells _ (by omega) _ (by omega)]
      interval_cases i <;> interval_cases j <;> rfl
    · rw [if_neg (by omega), cellAt_deadGrid]
      symm
      rw [decide_eq_false_iff_not]
      intro hm
      simp only [List.mem_cons, List.not_mem_nil, or_false, Prod.mk.injEq] at hm
      omega

/-- C3 witness: inserting at (5, 5) on a dead 10 by 10 grid puts a live cell
at (5, 5) and keeps (6, 6) dead. -/
theorem C3_insert_glider_witness :
    Rect (deadGrid 10 10) 10 10 ∧ 8 ≤ 10 ∧
    cellAt (addGlider (deadGrid 10 10) (some (5, 5))) 5 5 =
      decide ((5, 5) ∈
        ([(5, 5), (5, 6), (5, 7), (6, 5), (7, 6)] : List (Nat × Nat))) ∧
    cellAt (addGlider (deadGrid 10 10) (some (5, 5))) 6 6 =
      decide ((6, 6) ∈
        ([(5, 5), (5, 6), (5, 7), (6, 5), (7, 6)] : List (Nat × Nat))) :=
  ⟨rect_deadGrid 10 10, by decide,
    (C3_insert_glider (deadGrid 10 10) 10 10 (rect_deadGrid 10 10)
      (some (5, 5))).2.2.2 10 10 (by decide) (by decide) 5 5,
    (C3_insert_glider (deadGrid 10 10) 10 10 (rect_deadGrid 10 10)
      (some (5, 5))).2.2.2 10 10 (by decide) (by decide) 6 6⟩

/-- C2 counterexample: the state reached from the mount state by one press of
the p key is reachable yet violates the claimed equivalence, because the p
handler toggles the derived `running` flag directly while `userRunning` and
`systemRunning` stay true. -/
theorem C2_run_invariant_counterexample :
    Reachable (deadGrid 1 1) (stepEvent Event.keyP (initState (deadGrid 1 1))) ∧
    ¬ runInv (stepEvent Event.keyP (initState (deadGrid 1 1))) :=
  ⟨Reachable.step Event.keyP Reachable.init, by decide⟩

/-- C2 (amended): the equivalence EffectiveRunning = RunIntent AND
VisibilityRunnable holds at mount and is preserved by every event handler
except the p key (which toggles EffectiveRunning directly); a timer tick
applies the transition exactly when EffectiveRunning is true, and in any
state satisfying the equivalence with VisibilityRunnable false a tick
changes nothing. -/
theorem C2_run_invariant (s : WidgetState) (e : Event) (hinv : runInv s) :
    (∀ g, runInv (initState g)) ∧
    (e ≠ Event.keyP → runInv (stepEvent e s)) ∧
    (stepEvent Event.tick s).cells =
      (if s.running then updateGrid s.cells else s.cells) ∧
    (s.systemRunning = false → stepEvent Event.tick s = s) :=
  ⟨runInv_init, fun he => runInv_preserved s e he hinv, tick_gated s,
    fun hsys => tick_stopped s hinv hsys⟩

/-- C2 witness: in the mount state with visibility lost, the equivalence
holds, visibility is false, and a tick leaves the state unchanged. -/
theorem C2_run_invariant_witness :
    runInv (stepEvent (Event.setInView false) (initState [[true]])) ∧
    stepEvent Event.tick (stepEvent (Event.setInView false) (initState [[true]]))
      = stepEvent (Event.setInView false) (initState [[true]]) :=
  ⟨by decide,
    (C2_run_invariant (stepEvent (Event.setInView false) (initState [[true]]))
      Event.tick (by decide)).2.2.2 (by decide)⟩
